import Mathlib

/-!
Verification development for the offline digital-cash (DPC) note protocol.

The embedding below follows the repository's two implementations:
* the holder (mobile) side: `mobile/src/util/crypto.ts` and
  `OfflineTransferEngine` (`buildTransferPayload`, `validateIncomingNote`);
* the issuer (bank) side: `backend/server.js` (`verifyTransferChain`,
  `calculateOfflineBalance`, `redeemNotes`, the `/withdraw` handler).

Signatures are modelled symbolically: a detached signature is a pair of the
signer's public key and the signed message, `sign` produces exactly that pair
from a secret key, and `verify` checks both components.  This captures the
correctness contract of `nacl.sign.detached` / `nacl.sign.detached.verify`
(a signature verifies under a public key and message exactly when it was
produced by the matching secret key over that message).  Timestamps are
integers (milliseconds, as returned by `Date.now()` / `getTime()`); the
ISO-string round-trip of the JavaScript code is value-preserving and is not
modelled.  JavaScript `Map`s are association lists (insertion order, `set`
replaces in place), `Set`s are lists queried by membership.
-/

namespace DPC

/-- The canonical byte messages that are ever signed in the system:
the hop message `"Transfer:" + noteId + ":" + to` and the bank's
mint-field serialization `JSON.stringify({noteId, value, createdAt,
expiry, issuedTo})` (fixed key order, hence injective in the fields). -/
inductive Message where
  | transfer (noteId : String) (toKey : String)
  | mintFields (noteId : String) (value : Int) (createdAt : Int)
      (expiry : Int) (issuedTo : String)
deriving DecidableEq, Repr

/-- A detached signature, symbolically: the public key it verifies under
and the message it covers. -/
structure Sig where
  pk : String
  msg : Message
deriving DecidableEq, Repr

/-- Public key derived from a secret key (the `nacl.sign.keyPair` pairing). -/
def pubOf (sk : String) : String := "pub:" ++ sk

/-- `nacl.sign.detached`: sign a message with a secret key. -/
def mkSig (sk : String) (m : Message) : Sig := ⟨pubOf sk, m⟩

/-- `nacl.sign.detached.verify`: a (possibly missing/garbage, hence
`Option`) signature verifies under `pk` over `m` exactly when it is a
real signature by the holder of `pk` over `m`. -/
def sigVerify (pk : String) (m : Message) (s : Option Sig) : Bool :=
  match s with
  | none => false
  | some sg => sg.pk == pk && sg.msg == m

/-- One hop of a note's transfer chain (`TransferEntry` in
`core/types`).  `signature = none` models a missing/empty signature
field.  `fromKey` renders the source field `from` (a Lean keyword). -/
structure TransferEntry where
  fromKey : String
  toKey : String
  signature : Option Sig
  timestamp : Int
deriving DecidableEq, Repr

/-- A digital note (`DigitalNote`), as minted by the bank: the wire
fields of the `/withdraw` response.  `issuerSignature = none` models an
empty/garbage signature string. -/
structure DigitalNote where
  noteId : String
  value : Int
  createdAt : Int
  expiry : Int
  issuerSignature : Option Sig
  issuedTo : String
  transferChain : List TransferEntry
deriving DecidableEq, Repr

/-- Modelled from the spec: the policy constants of
`mobile/src/core/constants.ts` (the file itself is not in the sources;
the spec fixes `HOP_LIMIT = 3` and `OFFLINE_BALANCE_LIMIT = 1000`, and
`backend/server.js` declares the same values). -/
def MAX_HOPS : Nat := 3

/-- Modelled from the spec: offline balance limit (1000), identical on
holder and issuer sides. -/
def MAX_OFFLINE_BALANCE : Int := 1000

/-- `NOTE_LIFETIME_MS = 7 * 24 * 60 * 60 * 1000` (`backend/server.js`). -/
def NOTE_LIFETIME_MS : Int := 7 * 24 * 60 * 60 * 1000

/-- `serializeNoteForSigning` (`server.js`) / the `transferable` object of
`verifyBankSignature` (`crypto.ts`): the canonical mint-field message. -/
def mintMessage (note : DigitalNote) : Message :=
  .mintFields note.noteId note.value note.createdAt note.expiry note.issuedTo

/-- The hop message `Transfer:${noteId}:${to}`. -/
def transferMessage (noteId toKey : String) : Message := .transfer noteId toKey

namespace Crypto

/-- `signTransfer` (`mobile/src/util/crypto.ts`): build a hop signed by
the sender over `Transfer:${noteId}:${recipientPublicKey}`; the
timestamp records the current time and is not part of the message. -/
def signTransfer (noteId : String) (senderPrivateKey : String)
    (senderPublicKey : String) (recipientPublicKey : String)
    (now : Int) : TransferEntry :=
  { fromKey := senderPublicKey
    toKey := recipientPublicKey
    signature := some (mkSig senderPrivateKey (transferMessage noteId recipientPublicKey))
    timestamp := now }

/-- `verifyBankSignature` (`mobile/src/util/crypto.ts`). -/
def verifyBankSignature (note : DigitalNote) (bankPublicKey : String) : Bool :=
  sigVerify bankPublicKey (mintMessage note) note.issuerSignature

/-- The loop body of the holder-side `verifyTransferChain`: `every` with
the mutable `previousOwner` accumulator. -/
def verifyChainFrom (noteId : String) (previousOwner : String) :
    List TransferEntry → Bool
  | [] => true
  | e :: rest =>
    if e.fromKey ≠ previousOwner then false
    else if ¬ sigVerify e.fromKey (transferMessage noteId e.toKey) e.signature then false
    else verifyChainFrom noteId e.toKey rest

/-- `verifyTransferChain` (`mobile/src/util/crypto.ts`): no hop-limit
check, no ledger access. -/
def verifyTransferChain (note : DigitalNote) : Bool :=
  verifyChainFrom note.noteId note.issuedTo note.transferChain

/-- `getNoteOwner` (`mobile/src/util/crypto.ts`): `issuedTo` for an
empty chain, otherwise the last hop's `to`. -/
def getNoteOwner (note : DigitalNote) : String :=
  match note.transferChain.getLast? with
  | none => note.issuedTo
  | some e => e.toKey

end Crypto

/-- `TransferValidationResult` of `OfflineTransferEngine`. -/
structure TransferValidationResult where
  ok : Bool
  reason : Option String
deriving DecidableEq, Repr

/-- Result of `buildTransferPayload`. -/
structure BuildResult where
  updatedNote : DigitalNote
  validation : TransferValidationResult
deriving DecidableEq, Repr

namespace OfflineTransferEngine

/-- `OfflineTransferEngine.buildTransferPayload`: owner check, self-send
check, hop-limit pre-check (`length >= MAX_HOPS`), balance sanity check,
expiry check, then append one signed hop (copy-on-append). -/
def buildTransferPayload (note : DigitalNote) (senderPrivateKey : String)
    (senderPublicKey : String) (recipientPublicKey : String)
    (currentBalance : Int) (now : Int) : BuildResult :=
  if Crypto.getNoteOwner note ≠ senderPublicKey then
    ⟨note, false, some "Sender is not the current note owner"⟩
  else if recipientPublicKey = senderPublicKey then
    ⟨note, false, some "Cannot transfer to the same wallet"⟩
  else if note.transferChain.length ≥ MAX_HOPS then
    ⟨note, false, some "Hop limit exceeded"⟩
  else if currentBalance < note.value then
    ⟨note, false, some "Insufficient offline balance"⟩
  else if note.expiry < now then
    ⟨note, false, some "Note has expired"⟩
  else
    let transferEntry :=
      Crypto.signTransfer note.noteId senderPrivateKey senderPublicKey
        recipientPublicKey now
    ⟨{ note with transferChain := note.transferChain ++ [transferEntry] },
      true, none⟩

/-- `OfflineTransferEngine.validateIncomingNote`: issuer signature,
chain validity, recipient-is-owner, hop limit, expiry, balance cap —
in exactly this order. -/
def validateIncomingNote (note : DigitalNote) (bankPublicKey : String)
    (recipientPublicKey : String) (recipientBalance : Int)
    (now : Int) : TransferValidationResult :=
  if ¬ Crypto.verifyBankSignature note bankPublicKey then
    ⟨false, some "Invalid issuer signature"⟩
  else if ¬ Crypto.verifyTransferChain note then
    ⟨false, some "Invalid transfer chain"⟩
  else if Crypto.getNoteOwner note ≠ recipientPublicKey then
    ⟨false, some "Transfer chain does not end with recipient"⟩
  else if note.transferChain.length > MAX_HOPS then
    ⟨false, some "Hop limit exceeded"⟩
  else if note.expiry < now then
    ⟨false, some "Note has expired"⟩
  else if recipientBalance + note.value > MAX_OFFLINE_BALANCE then
    ⟨false, some "Offline balance limit exceeded"⟩
  else
    ⟨true, none⟩

end OfflineTransferEngine

namespace Server

/-- The value stored in `issuedNotes` (`server.js`): the note's fields
together with the `owner` property (`{...note, owner}` on mint and
redeem). -/
structure StoredNote where
  note : DigitalNote
  owner : String
deriving DecidableEq, Repr

/-- The bank's module-level state (`server.js`): `registeredWallets`
(only key membership is ever consulted by withdraw/redeem/verify, so the
label records are elided), `issuedNotes` and `spentNotes`. -/
structure BankState where
  registeredWallets : List String
  issuedNotes : List (String × StoredNote)
  spentNotes : List String
deriving DecidableEq, Repr

/-- `Map.prototype.set`: replace in place if the key exists (JavaScript
preserves the original insertion position), else append. -/
def mapSet (m : List (String × StoredNote)) (k : String) (v : StoredNote) :
    List (String × StoredNote) :=
  if (m.lookup k).isSome then
    m.map (fun p => if p.1 = k then (k, v) else p)
  else m ++ [(k, v)]

/-- `verifyBankSignature` (`server.js`): verification against the bank's
own public key. -/
def verifyBankSignature (bankPublicKey : String) (note : DigitalNote) : Bool :=
  sigVerify bankPublicKey (mintMessage note) note.issuerSignature

/-- Result of the issuer-side `verifyTransferChain` (`{ok, reason}`). -/
inductive ChainCheck where
  | ok
  | err (reason : String)
deriving DecidableEq, Repr

/-- The `for` loop of the issuer-side `verifyTransferChain`: per entry,
the missing-properties check (`!from || !to || !signature`), the
registered-wallet check, the chaining check and the signature check, in
that order; on success it yields the final `previousOwner`. -/
def chainLoop (regs : List String) (noteId : String) (index : Nat)
    (previousOwner : String) : List TransferEntry → Except String String
  | [] => .ok previousOwner
  | e :: rest =>
    if e.fromKey = "" ∨ e.toKey = "" ∨ e.signature = none then
      .error ("transfer entry " ++ toString index ++ " is missing properties")
    else if ¬ (regs.contains e.fromKey ∧ regs.contains e.toKey) then
      .error ("transfer entry " ++ toString index ++ " references unregistered wallet")
    else if e.fromKey ≠ previousOwner then
      .error ("transfer entry " ++ toString index ++ " does not chain from previous owner")
    else if ¬ sigVerify e.fromKey (transferMessage noteId e.toKey) e.signature then
      .error ("signature validation failed for transfer entry " ++ toString index)
    else chainLoop regs noteId (index + 1) e.toKey rest

/-- `verifyTransferChain` (`backend/server.js`): hop limit, issuance
record lookup, `issuedTo` match, the per-entry loop, and the final
depositor-ownership check.  (The `Array.isArray` guard is vacuous in the
typed embedding.) -/
def verifyTransferChain (s : BankState) (note : DigitalNote)
    (depositorPublicKey : String) : ChainCheck :=
  if note.transferChain.length > MAX_HOPS then
    .err ("hop limit exceeded (" ++ toString note.transferChain.length ++ "/"
      ++ toString MAX_HOPS ++ ")")
  else
    match s.issuedNotes.lookup note.noteId with
    | none => .err "note was not issued by this bank"
    | some issuanceRecord =>
      if issuanceRecord.note.issuedTo ≠ note.issuedTo then
        .err "issuedTo does not match issuance record"
      else
        match chainLoop s.registeredWallets note.noteId 0 note.issuedTo
            note.transferChain with
        | .error reason => .err reason
        | .ok previousOwner =>
          if previousOwner ≠ depositorPublicKey then
            .err "note is not owned by depositing wallet"
          else .ok

/-- `calculateOfflineBalance` (`server.js`): sum the values of issued
notes that are unspent and whose current chain owner (`owner` for an
empty chain, last hop's `to` otherwise) is the wallet. -/
def calculateOfflineBalance (s : BankState) (walletPublicKey : String) : Int :=
  (((s.issuedNotes.map Prod.snd).filter (fun sn =>
      !(s.spentNotes.contains sn.note.noteId) &&
      (match sn.note.transferChain.getLast? with
       | none => sn.owner == walletPublicKey
       | some e => e.toKey == walletPublicKey))).map
    (fun sn => sn.note.value)).sum

/-- One per-note result of `redeemNotes` (`noteId = ""` models a missing
`noteId`, rendered `null` in the JSON response). -/
inductive NoteResult where
  | redeemed (noteId : String)
  | rejected (noteId : String) (reason : String)
deriving DecidableEq, Repr

/-- Whether a per-note result is a redemption. -/
def NoteResult.isRedeemed : NoteResult → Bool
  | .redeemed _ => true
  | .rejected _ _ => false

/-- The body of `redeemNotes`'s `notes.map` callback for one submitted
note, threading the mutated `spentNotes`/`issuedNotes`: missing-id check,
spent check, bank-signature check, transfer-chain check, expiry check,
then mark spent and record the depositor as owner. -/
def redeemOne (bankPublicKey : String) (now : Int) (publicKey : String)
    (s : BankState) (note : DigitalNote) : NoteResult × BankState :=
  if note.noteId = "" then
    (.rejected "" "noteId missing", s)
  else if s.spentNotes.contains note.noteId then
    (.rejected note.noteId "note already spent", s)
  else if ¬ verifyBankSignature bankPublicKey note then
    (.rejected note.noteId "invalid bank signature", s)
  else
    match verifyTransferChain s note publicKey with
    | .err reason => (.rejected note.noteId reason, s)
    | .ok =>
      if note.expiry < now then
        (.rejected note.noteId "note expired", s)
      else
        (.redeemed note.noteId,
          { s with
            spentNotes := s.spentNotes ++ [note.noteId]
            issuedNotes := mapSet s.issuedNotes note.noteId ⟨note, publicKey⟩ })

/-- `redeemNotes` (`server.js`): reject the whole batch if the depositor
is unregistered, else process the notes in order, each against the state
left by its predecessors. -/
def redeemNotes (bankPublicKey : String) (now : Int) (s : BankState)
    (publicKey : String) (notes : List DigitalNote) :
    List NoteResult × BankState :=
  if ¬ s.registeredWallets.contains publicKey then
    (notes.map (fun n => .rejected n.noteId "wallet is not registered"), s)
  else
    notes.foldl
      (fun acc n =>
        let r := redeemOne bankPublicKey now publicKey acc.2 n
        (acc.1 ++ [r.1], r.2))
      ([], s)

/-- Result of the `/withdraw` handler: HTTP 400, HTTP 404, or HTTP 201
with the freshly minted note (the response strips the `owner` field). -/
inductive WithdrawResult where
  | badRequest (error : String)
  | notFound (error : String)
  | created (note : DigitalNote)
deriving DecidableEq, Repr

/-- The note object built and signed inside the `/withdraw` handler:
fresh id, `expiry = now + 7d`, empty chain, bank signature over the
mint fields (the signature field is not part of the signed message, so
signing the pre-signature object is equivalent). -/
def mintedNote (bankSecretKey : String) (publicKey : String) (amount : Int)
    (uuid : String) (now : Int) : DigitalNote :=
  let note : DigitalNote :=
    { noteId := uuid
      value := amount
      createdAt := now
      expiry := now + NOTE_LIFETIME_MS
      issuerSignature := none
      issuedTo := publicKey
      transferChain := [] }
  { note with issuerSignature := some (mkSig bankSecretKey (mintMessage note)) }

/-- The `/withdraw` handler (`server.js`): input checks, registration,
positivity, the absolute cap, the balance cap against the ledger's own
`calculateOfflineBalance`, then mint and store in `issuedNotes` with
`owner = publicKey`.  `uuid` stands for `uuidv4()` and `now` for
`Date.now()`. -/
def withdraw (bankSecretKey : String) (s : BankState) (publicKey : String)
    (amount : Int) (uuid : String) (now : Int) : WithdrawResult × BankState :=
  if publicKey = "" then
    (.badRequest "publicKey and numeric amount are required", s)
  else if ¬ s.registeredWallets.contains publicKey then
    (.notFound "wallet is not registered", s)
  else if amount ≤ 0 then
    (.badRequest "amount must be positive", s)
  else if amount > MAX_OFFLINE_BALANCE then
    (.badRequest ("amount exceeds offline balance limit ("
      ++ toString MAX_OFFLINE_BALANCE ++ ")"), s)
  else if calculateOfflineBalance s publicKey + amount > MAX_OFFLINE_BALANCE then
    (.badRequest "offline balance limit would be exceeded", s)
  else
    let signed := mintedNote bankSecretKey publicKey amount uuid now
    (.created signed,
      { s with issuedNotes := mapSet s.issuedNotes signed.noteId ⟨signed, publicKey⟩ })

end Server

/-! Spec-side predicates, written from the spec's / claims' wording, to be
compared with the implementation functions above. -/

/-- Spec wording: every hop's `from` equals the previous hop's `to`
(`issuedTo`, i.e. `previousOwner`, for the first hop). -/
def hopsWellLinked (previousOwner : String) : List TransferEntry → Bool
  | [] => true
  | e :: rest => (e.fromKey == previousOwner) && hopsWellLinked e.toKey rest

/-- Spec wording: every hop's signature verifies under its `from` key
over the message `"Transfer:" + noteId + ":" + to`. -/
def hopsSigned (noteId : String) : List TransferEntry → Bool
  | [] => true
  | e :: rest =>
    sigVerify e.fromKey (transferMessage noteId e.toKey) e.signature &&
    hopsSigned noteId rest

/-- The chain-validity predicate claimed for `verifyChain`: well-linked,
all hop signatures verify, and at most `HOP_LIMIT` hops. -/
def claimChainValid (note : DigitalNote) : Bool :=
  hopsWellLinked note.issuedTo note.transferChain &&
  hopsSigned note.noteId note.transferChain &&
  decide (note.transferChain.length ≤ MAX_HOPS)

/-- Every hop has non-empty `from`/`to` and a present signature (the
issuer loop's missing-properties guard, globalized). -/
def entriesComplete (chain : List TransferEntry) : Bool :=
  chain.all (fun e => !(e.fromKey == "") && !(e.toKey == "") && e.signature.isSome)

/-- Every hop's `from` and `to` are registered wallets. -/
def entriesRegistered (regs : List String) (chain : List TransferEntry) : Bool :=
  chain.all (fun e => regs.contains e.fromKey && regs.contains e.toKey)

/-- The chain-resolved owner: `previousOwner` for an empty chain, else
the last hop's `to`. -/
def specOwnerFrom (previousOwner : String) (chain : List TransferEntry) : String :=
  match chain.getLast? with
  | none => previousOwner
  | some e => e.toKey

/-- The issuance record for the note's id exists and its `issuedTo`
agrees with the submitted note's. -/
def recordMatches (s : Server.BankState) (note : DigitalNote) : Bool :=
  match s.issuedNotes.lookup note.noteId with
  | none => false
  | some r => r.note.issuedTo == note.issuedTo

/-! Concrete scenario data used by counterexamples and witnesses. -/

/-- The bank's public key in the concrete scenarios (secret key `"bank"`). -/
def bankPkC : String := pubOf "bank"

/-- A concrete wallet public key (secret key `"w"`). -/
def pkW : String := pubOf "w"

/-- Four genuinely signed hops `a → b → c → d → e` for note `"n4"`. -/
def hops4 : List TransferEntry :=
  [ Crypto.signTransfer "n4" "a" (pubOf "a") (pubOf "b") 1,
    Crypto.signTransfer "n4" "b" (pubOf "b") (pubOf "c") 2,
    Crypto.signTransfer "n4" "c" (pubOf "c") (pubOf "d") 3,
    Crypto.signTransfer "n4" "d" (pubOf "d") (pubOf "e") 4 ]

/-- The unsigned fields of `note4`. -/
def note4base : DigitalNote :=
  { noteId := "n4", value := 5, createdAt := 0, expiry := 1000000
    issuerSignature := none, issuedTo := pubOf "a", transferChain := hops4 }

/-- A bank-signed note whose chain has four valid hops. -/
def note4 : DigitalNote :=
  { note4base with issuerSignature := some (mkSig "bank" (mintMessage note4base)) }

/-- A note whose chain already has three hops `a → b → c → d`. -/
def note3 : DigitalNote :=
  { noteId := "n3", value := 5, createdAt := 0, expiry := 1000000
    issuerSignature := none, issuedTo := pubOf "a"
    transferChain :=
      [ Crypto.signTransfer "n3" "a" (pubOf "a") (pubOf "b") 1,
        Crypto.signTransfer "n3" "b" (pubOf "b") (pubOf "c") 2,
        Crypto.signTransfer "n3" "c" (pubOf "c") (pubOf "d") 3 ] }

/-- The unsigned fields of `noteW`. -/
def noteWbase : DigitalNote :=
  { noteId := "n1", value := 10, createdAt := 0, expiry := 100
    issuerSignature := none, issuedTo := pkW, transferChain := [] }

/-- A validly minted note issued to wallet `pkW`, empty chain. -/
def noteW : DigitalNote :=
  { noteWbase with issuerSignature := some (mkSig "bank" (mintMessage noteWbase)) }

/-- A bank state in which `pkW` is registered and `noteW` is issued to
it and unspent. -/
def stateW : Server.BankState :=
  { registeredWallets := [pkW]
    issuedNotes := [("n1", ⟨noteW, pkW⟩)]
    spentNotes := [] }

/-- `stateW` after `noteW` has been redeemed by `pkW`. -/
def stateW2 : Server.BankState :=
  { registeredWallets := [pkW]
    issuedNotes := [("n1", ⟨noteW, pkW⟩)]
    spentNotes := ["n1"] }

/-- `noteW` with its `issuedTo` field mutated after mint (the forged-root
scenario); the issuer signature still covers the original fields. -/
def noteX : DigitalNote := { noteW with issuedTo := pubOf "x" }

/-- A fresh single-owner note used by the transfer witnesses. -/
def noteA : DigitalNote :=
  { noteId := "na", value := 10, createdAt := 0, expiry := 100
    issuerSignature := none, issuedTo := pubOf "a", transferChain := [] }

/-- An issued note of value 500 owned by `pkW` (empty chain). -/
def note500 : DigitalNote :=
  { noteId := "m1", value := 500, createdAt := 0, expiry := 1000000
    issuerSignature := none, issuedTo := pkW, transferChain := [] }

/-- An issued note of value 450 owned by `pkW` (empty chain). -/
def note450 : DigitalNote :=
  { noteId := "m2", value := 450, createdAt := 0, expiry := 1000000
    issuerSignature := none, issuedTo := pkW, transferChain := [] }

/-- A bank state whose ledger-computed balance for `pkW` is 950. -/
def s950 : Server.BankState :=
  { registeredWallets := [pkW]
    issuedNotes := [("m1", ⟨note500, pkW⟩), ("m2", ⟨note450, pkW⟩)]
    spentNotes := [] }

/-- A one-hop note with hop timestamp 10. -/
def noteT1 : DigitalNote :=
  { noteId := "nt", value := 5, createdAt := 0, expiry := 50
    issuerSignature := none, issuedTo := pubOf "a"
    transferChain := [Crypto.signTransfer "nt" "a" (pubOf "a") (pubOf "b") 10] }

/-- `noteT1` with the hop timestamp changed to 20. -/
def noteT2 : DigitalNote :=
  { noteId := "nt", value := 5, createdAt := 0, expiry := 50
    issuerSignature := none, issuedTo := pubOf "a"
    transferChain := [Crypto.signTransfer "nt" "a" (pubOf "a") (pubOf "b") 20] }

/-- Erase a hop's advisory timestamp. -/
def stripHop (e : TransferEntry) : TransferEntry := { e with timestamp := 0 }

/-- Erase all hop timestamps of a note: two notes differ only in hop
timestamps exactly when their `stripNote` images coincide. -/
def stripNote (n : DigitalNote) : DigitalNote :=
  { n with transferChain := n.transferChain.map stripHop }

/-- All per-entry conditions of the issuer loop, as one Bool recursion. -/
def entriesOk (regs : List String) (nid : String) (prev : String) :
    List TransferEntry → Bool
  | [] => true
  | e :: rest =>
    !(e.fromKey == "") && !(e.toKey == "") && e.signature.isSome &&
    regs.contains e.fromKey && regs.contains e.toKey &&
    (e.fromKey == prev) &&
    sigVerify e.fromKey (transferMessage nid e.toKey) e.signature &&
    entriesOk regs nid e.toKey rest

/-!
Helper lemmas relating the implementation functions to the spec-side
predicates.
-/

lemma verifyChainFrom_eq (nid : String) :
    ∀ (c : List TransferEntry) (prev : String),
      Crypto.verifyChainFrom nid prev c =
        (hopsWellLinked prev c && hopsSigned nid c)
  | [], _ => rfl
  | e :: rest, prev => by
    simp only [Crypto.verifyChainFrom, hopsWellLinked, hopsSigned]
    by_cases h1 : e.fromKey = prev
    · subst h1
      simp only [ne_eq, not_true_eq_false, if_false, beq_self_eq_true,
        Bool.true_and]
      cases h2 : sigVerify e.fromKey (transferMessage nid e.toKey) e.signature <;>
        simp [h2, verifyChainFrom_eq nid rest e.toKey, Bool.and_left_comm]
    · simp [h1, Ne.symm h1, bne_iff_ne, beq_eq_false_iff_ne]

lemma verifyTransferChain_eq (note : DigitalNote) :
    Crypto.verifyTransferChain note =
      (hopsWellLinked note.issuedTo note.transferChain &&
       hopsSigned note.noteId note.transferChain) :=
  verifyChainFrom_eq note.noteId note.transferChain note.issuedTo

lemma specOwnerFrom_cons (prev : String) (e : TransferEntry)
    (rest : List TransferEntry) :
    specOwnerFrom prev (e :: rest) = specOwnerFrom e.toKey rest := by
  cases rest <;> simp [specOwnerFrom, List.getLast?]

lemma chainLoop_ok_iff (regs : List String) (nid : String) :
    ∀ (c : List TransferEntry) (i : Nat) (prev o : String),
      Server.chainLoop regs nid i prev c = .ok o ↔
        (entriesOk regs nid prev c = true ∧ o = specOwnerFrom prev c)
  | [], i, prev, o => by
    constructor
    · intro h
      injection h with h
      exact ⟨rfl, h.symm⟩
    · rintro ⟨-, h⟩
      subst h
      rfl
  | e :: rest, i, prev, o => by
    rw [Server.chainLoop]
    by_cases hc : e.fromKey = "" ∨ e.toKey = "" ∨ e.signature = none
    · rw [if_pos hc]
      constructor
      · intro h; exact Except.noConfusion h
      · rintro ⟨ha, -⟩
        simp only [entriesOk, Bool.and_eq_true] at ha
        obtain ⟨⟨⟨⟨⟨⟨⟨a1, a2⟩, a3⟩, -⟩, -⟩, -⟩, -⟩, -⟩ := ha
        rcases hc with h | h | h
        · rw [h] at a1; simp at a1
        · rw [h] at a2; simp at a2
        · rw [h] at a3; simp at a3
    · rw [if_neg hc]
      rcases not_or.mp hc with ⟨hf, h'⟩
      rcases not_or.mp h' with ⟨ht, hs⟩
      by_cases hr : regs.contains e.fromKey ∧ regs.contains e.toKey
      · rw [if_neg (not_not_intro hr)]
        by_cases h1 : e.fromKey = prev
        · subst h1
          rw [if_neg (not_not_intro rfl)]
          cases h2 : sigVerify e.fromKey (transferMessage nid e.toKey) e.signature
          · rw [if_pos (by simp [h2])]
            constructor
            · intro h; exact Except.noConfusion h
            · rintro ⟨ha, -⟩
              simp only [entriesOk, Bool.and_eq_true] at ha
              exact absurd ha.1.2 (by simp [h2])
          · rw [if_neg (by simp [h2])]
            have hhead : entriesOk regs nid e.fromKey (e :: rest) =
                entriesOk regs nid e.toKey rest := by
              simp only [entriesOk, beq_eq_false_iff_ne.mpr hf,
                beq_eq_false_iff_ne.mpr ht, Option.ne_none_iff_isSome.mp hs,
                hr.1, hr.2, beq_self_eq_true, h2, Bool.not_false, Bool.and_true,
                Bool.true_and, Bool.and_self]
            rw [chainLoop_ok_iff regs nid rest (i + 1) e.toKey o,
              specOwnerFrom_cons, hhead]
        · rw [if_pos h1]
          constructor
          · intro h; exact Except.noConfusion h
          · rintro ⟨ha, -⟩
            simp only [entriesOk, Bool.and_eq_true] at ha
            exact absurd (beq_iff_eq.mp ha.1.1.2) h1
      · rw [if_pos hr]
        constructor
        · intro h; exact Except.noConfusion h
        · rintro ⟨ha, -⟩
          simp only [entriesOk, Bool.and_eq_true] at ha
          exact absurd ⟨ha.1.1.1.1.2, ha.1.1.1.2⟩ hr

lemma entriesOk_eq (regs : List String) (nid : String) :
    ∀ (c : List TransferEntry) (prev : String),
      entriesOk regs nid prev c =
        (entriesComplete c && entriesRegistered regs c &&
         hopsWellLinked prev c && hopsSigned nid c)
  | [], _ => rfl
  | e :: rest, prev => by
    rw [show entriesOk regs nid prev (e :: rest) =
        (!(e.fromKey == "") && !(e.toKey == "") && e.signature.isSome &&
         regs.contains e.fromKey && regs.contains e.toKey &&
         (e.fromKey == prev) &&
         sigVerify e.fromKey (transferMessage nid e.toKey) e.signature &&
         entriesOk regs nid e.toKey rest) from rfl,
      entriesOk_eq regs nid rest e.toKey]
    rw [Bool.eq_iff_iff]
    simp only [entriesComplete, entriesRegistered, hopsWellLinked, hopsSigned,
      List.all_cons, Bool.and_eq_true]
    tauto

/-- Full characterization of issuer-side chain verification success. -/
lemma serverVerify_ok_iff (s : Server.BankState) (note : DigitalNote)
    (pk : String) :
    Server.verifyTransferChain s note pk = .ok ↔
      (note.transferChain.length ≤ MAX_HOPS ∧
       recordMatches s note = true ∧
       entriesComplete note.transferChain = true ∧
       entriesRegistered s.registeredWallets note.transferChain = true ∧
       hopsWellLinked note.issuedTo note.transferChain = true ∧
       hopsSigned note.noteId note.transferChain = true ∧
       specOwnerFrom note.issuedTo note.transferChain = pk) := by
  unfold Server.verifyTransferChain
  by_cases hl : note.transferChain.length > MAX_HOPS
  · rw [if_pos hl]
    constructor
    · intro h; exact Server.ChainCheck.noConfusion h
    · rintro ⟨h, -⟩; omega
  · rw [if_neg hl]
    cases hrec : s.issuedNotes.lookup note.noteId with
    | none =>
      simp only [recordMatches, hrec]
      constructor
      · intro h; exact Server.ChainCheck.noConfusion h
      · rintro ⟨-, h, -⟩; exact Bool.noConfusion h
    | some r =>
      simp only [recordMatches, hrec]
      by_cases hm : r.note.issuedTo = note.issuedTo
      · rw [if_neg (not_not_intro hm)]
        cases hcl : Server.chainLoop s.registeredWallets note.noteId 0
            note.issuedTo note.transferChain with
        | error reason =>
          constructor
          · intro h; exact Server.ChainCheck.noConfusion h
          · rintro ⟨-, -, h1, h2, h3, h4, h5⟩
            have hok : Server.chainLoop s.registeredWallets note.noteId 0
                note.issuedTo note.transferChain =
                .ok (specOwnerFrom note.issuedTo note.transferChain) := by
              rw [chainLoop_ok_iff]
              refine ⟨?_, rfl⟩
              rw [entriesOk_eq, h1, h2, h3, h4]
              rfl
            rw [hok] at hcl
            exact Except.noConfusion hcl
        | ok prev =>
          show (if prev ≠ pk then
              Server.ChainCheck.err "note is not owned by depositing wallet"
            else Server.ChainCheck.ok) = Server.ChainCheck.ok ↔ _
          obtain ⟨hok, hprev⟩ :=
            (chainLoop_ok_iff s.registeredWallets note.noteId
              note.transferChain 0 note.issuedTo prev).mp hcl
          rw [entriesOk_eq] at hok
          simp only [Bool.and_eq_true] at hok
          by_cases hp : prev = pk
          · rw [if_neg (not_not_intro hp)]
            constructor
            · rintro -
              exact ⟨by omega, by simp [hm], hok.1.1.1, hok.1.1.2, hok.1.2,
                hok.2, by rw [← hprev, hp]⟩
            · rintro -; rfl
          · rw [if_pos hp]
            constructor
            · intro h; exact Server.ChainCheck.noConfusion h
            · rintro ⟨-, -, -, -, -, -, h5⟩
              exact absurd (hprev.trans h5) hp
      · rw [if_pos hm]
        constructor
        · intro h; exact Server.ChainCheck.noConfusion h
        · rintro ⟨-, h, -⟩
          exact absurd (by simpa using h) hm

/-- A successful redemption implies every guard passed, and pins down
the full result (result value and state update). -/
lemma redeemOne_success (b : String) (now : Int) (pk : String)
    (s : Server.BankState) (n : DigitalNote)
    (h : ((Server.redeemOne b now pk s n).1).isRedeemed = true) :
    n.noteId ≠ "" ∧ s.spentNotes.contains n.noteId = false ∧
    Server.verifyBankSignature b n = true ∧
    Server.verifyTransferChain s n pk = .ok ∧ ¬ (n.expiry < now) ∧
    Server.redeemOne b now pk s n =
      (.redeemed n.noteId,
       { s with
          spentNotes := s.spentNotes ++ [n.noteId]
          issuedNotes := Server.mapSet s.issuedNotes n.noteId ⟨n, pk⟩ }) := by
  unfold Server.redeemOne at h ⊢
  by_cases h1 : n.noteId = ""
  · rw [if_pos h1] at h
    exact absurd h (by simp [Server.NoteResult.isRedeemed])
  · rw [if_neg h1] at h ⊢
    by_cases h2 : s.spentNotes.contains n.noteId = true
    · rw [if_pos h2] at h
      exact absurd h (by simp [Server.NoteResult.isRedeemed])
    · rw [if_neg h2] at h ⊢
      by_cases h3 : Server.verifyBankSignature b n = true
      · rw [if_neg (not_not_intro h3)] at h ⊢
        cases h4 : Server.verifyTransferChain s n pk with
        | err reason =>
          simp only [h4] at h
          exact absurd h (by simp [Server.NoteResult.isRedeemed])
        | ok =>
          simp only [h4] at h
          by_cases h5 : n.expiry < now
          · rw [if_pos h5] at h
            exact absurd h (by simp [Server.NoteResult.isRedeemed])
          · refine ⟨h1, Bool.eq_false_iff.mpr h2, h3, rfl, h5, ?_⟩
            exact if_neg h5
      · rw [if_pos h3] at h
        exact absurd h (by simp [Server.NoteResult.isRedeemed])

/-- A note whose issuer-side chain verification fails is never redeemed. -/
lemma redeemOne_not_redeemed (b : String) (now : Int) (pk : String)
    (s : Server.BankState) (n : DigitalNote)
    (h : Server.verifyTransferChain s n pk ≠ .ok) :
    ((Server.redeemOne b now pk s n).1).isRedeemed = false := by
  cases hb : ((Server.redeemOne b now pk s n).1).isRedeemed
  · rfl
  · exact absurd (redeemOne_success b now pk s n hb).2.2.2.1 h

/-- `redeemNotes` on a one-note batch from a registered wallet is one
`redeemOne` step. -/
lemma redeemNotes_singleton (b : String) (now : Int) (s : Server.BankState)
    (pk : String) (n : DigitalNote)
    (hreg : s.registeredWallets.contains pk = true) :
    Server.redeemNotes b now s pk [n] =
      ([(Server.redeemOne b now pk s n).1], (Server.redeemOne b now pk s n).2) := by
  unfold Server.redeemNotes
  rw [if_neg (not_not_intro hreg)]
  simp [List.foldl]

lemma verifyChainFrom_strip (nid : String) :
    ∀ (c : List TransferEntry) (prev : String),
      Crypto.verifyChainFrom nid prev (c.map stripHop) =
        Crypto.verifyChainFrom nid prev c
  | [], _ => rfl
  | e :: rest, prev => by
    simp only [List.map, Crypto.verifyChainFrom, stripHop]
    rw [verifyChainFrom_strip nid rest e.toKey]

lemma chainLoop_strip (regs : List String) (nid : String) :
    ∀ (c : List TransferEntry) (i : Nat) (prev : String),
      Server.chainLoop regs nid i prev (c.map stripHop) =
        Server.chainLoop regs nid i prev c
  | [], _, _ => rfl
  | e :: rest, i, prev => by
    simp only [List.map, Server.chainLoop, stripHop]
    rw [chainLoop_strip regs nid rest (i + 1) e.toKey]

lemma specOwnerFrom_strip :
    ∀ (c : List TransferEntry) (prev : String),
      specOwnerFrom prev (c.map stripHop) = specOwnerFrom prev c
  | [], _ => rfl
  | e :: rest, prev => by
    rw [List.map_cons, specOwnerFrom_cons, specOwnerFrom_cons]
    exact specOwnerFrom_strip rest e.toKey

lemma getNoteOwner_eq_specOwnerFrom (n : DigitalNote) :
    Crypto.getNoteOwner n = specOwnerFrom n.issuedTo n.transferChain := rfl

lemma verifyTransferChain_strip (n : DigitalNote) :
    Crypto.verifyTransferChain (stripNote n) = Crypto.verifyTransferChain n :=
  verifyChainFrom_strip n.noteId n.transferChain n.issuedTo

lemma getNoteOwner_strip (n : DigitalNote) :
    Crypto.getNoteOwner (stripNote n) = Crypto.getNoteOwner n :=
  specOwnerFrom_strip n.transferChain n.issuedTo

lemma validateIncomingNote_strip (n : DigitalNote) (bpk rpk : String)
    (bal now : Int) :
    OfflineTransferEngine.validateIncomingNote (stripNote n) bpk rpk bal now =
      OfflineTransferEngine.validateIncomingNote n bpk rpk bal now := by
  unfold OfflineTransferEngine.validateIncomingNote
  rw [show Crypto.verifyBankSignature (stripNote n) bpk =
      Crypto.verifyBankSignature n bpk from rfl,
    verifyTransferChain_strip, getNoteOwner_strip,
    show (stripNote n).transferChain.length = n.transferChain.length from
      (by simp [stripNote]),
    show (stripNote n).expiry = n.expiry from rfl,
    show (stripNote n).value = n.value from rfl]

lemma serverVerify_strip (s : Server.BankState) (n : DigitalNote)
    (pk : String) :
    Server.verifyTransferChain s (stripNote n) pk =
      Server.verifyTransferChain s n pk := by
  unfold Server.verifyTransferChain
  rw [show (stripNote n).transferChain.length = n.transferChain.length from
      (by simp [stripNote]),
    show (stripNote n).noteId = n.noteId from rfl,
    show (stripNote n).issuedTo = n.issuedTo from rfl,
    show (stripNote n).transferChain = n.transferChain.map stripHop from rfl,
    chainLoop_strip]

end DPC

namespace DPC

/-- C1 counterexample: the holder-side `verifyTransferChain` accepts a
note with four valid hops, so "verification succeeds iff ... the chain
has length at most 3" is false for it. -/
theorem C1_counterexample :
    Crypto.verifyTransferChain note4 = true ∧ claimChainValid note4 = false ∧
    ¬ note4.transferChain.length ≤ MAX_HOPS := by
  refine ⟨by decide, by decide, by decide⟩

/-- C1 (amended): holder-side `verifyTransferChain` succeeds iff every
hop chains from the previous owner and every hop signature verifies —
with no hop-limit check; issuer-side `verifyTransferChain` succeeds iff
additionally the chain has at most `MAX_HOPS` hops, the note has a
matching issuance record, every hop is complete and references
registered wallets, and the chain-resolved owner is the depositor. -/
theorem C1_chain_verification_amended :
    (∀ note : DigitalNote,
      Crypto.verifyTransferChain note = true ↔
        (hopsWellLinked note.issuedTo note.transferChain = true ∧
         hopsSigned note.noteId note.transferChain = true)) ∧
    (∀ (s : Server.BankState) (note : DigitalNote) (pk : String),
      Server.verifyTransferChain s note pk = .ok ↔
        (note.transferChain.length ≤ MAX_HOPS ∧
         recordMatches s note = true ∧
         entriesComplete note.transferChain = true ∧
         entriesRegistered s.registeredWallets note.transferChain = true ∧
         hopsWellLinked note.issuedTo note.transferChain = true ∧
         hopsSigned note.noteId note.transferChain = true ∧
         specOwnerFrom note.issuedTo note.transferChain = pk)) := by
  constructor
  · intro note
    rw [verifyTransferChain_eq, Bool.and_eq_true]
  · intro s note pk
    exact serverVerify_ok_iff s note pk

/-- C10: a chain containing a hop that references an unregistered wallet
never passes issuer-side verification, and such a note is never
redeemed, regardless of all other (structural/cryptographic) validity. -/
theorem C10_unregistered_wallet_rejection :
    ∀ (s : Server.BankState) (note : DigitalNote) (pk bankPk : String)
      (now : Int),
      (∃ e ∈ note.transferChain,
        ¬ (s.registeredWallets.contains e.fromKey = true ∧
           s.registeredWallets.contains e.toKey = true)) →
      Server.verifyTransferChain s note pk ≠ .ok ∧
      ((Server.redeemOne bankPk now pk s note).1).isRedeemed = false := by
  rintro s note pk bankPk now ⟨e, he, hne⟩
  have hver : Server.verifyTransferChain s note pk ≠ .ok := by
    intro hok
    obtain ⟨-, -, -, hreg, -⟩ := (serverVerify_ok_iff s note pk).mp hok
    unfold entriesRegistered at hreg
    have hee := List.all_eq_true.mp hreg e he
    simp only [Bool.and_eq_true] at hee
    exact hne hee
  exact ⟨hver, redeemOne_not_redeemed bankPk now pk s note hver⟩

/-- C10 witness: in `stateW` only `pkW` is registered, so the hops of
`note4` reference unregistered wallets and the note is rejected. -/
theorem C10_unregistered_wallet_rejection_witness :
    Server.verifyTransferChain stateW note4 (pubOf "e") ≠ .ok ∧
    ((Server.redeemOne bankPkC 5 (pubOf "e") stateW note4).1).isRedeemed
      = false :=
  C10_unregistered_wallet_rejection stateW note4 (pubOf "e") bankPkC 5
    (by decide)

end DPC

namespace DPC

/-- C2: if a single-note redeem succeeds, resubmitting the same note (at
any later time) is rejected with "note already spent" and leaves the
bank state — in particular `spentNotes` and `issuedNotes` — unchanged. -/
theorem C2_double_spend_sequential :
    ∀ (b : String) (now now2 : Int) (s : Server.BankState) (pk : String)
      (n : DigitalNote) (s1 : Server.BankState),
      Server.redeemNotes b now s pk [n] = ([.redeemed n.noteId], s1) →
      Server.redeemNotes b now2 s1 pk [n] =
        ([.rejected n.noteId "note already spent"], s1) := by
  intro b now now2 s pk n s1 h
  have hreg : s.registeredWallets.contains pk = true := by
    by_contra hneg
    unfold Server.redeemNotes at h
    rw [if_pos hneg] at h
    simp at h
  rw [redeemNotes_singleton b now s pk n hreg] at h
  injection h with hlist hstate
  injection hlist with hres hnil
  have hred : ((Server.redeemOne b now pk s n).1).isRedeemed = true := by
    rw [hres]; rfl
  obtain ⟨hid, hspent, hbank, hchain, hexp, heq⟩ :=
    redeemOne_success b now pk s n hred
  have hs1 : s1 =
      { s with
        spentNotes := s.spentNotes ++ [n.noteId]
        issuedNotes := Server.mapSet s.issuedNotes n.noteId ⟨n, pk⟩ } := by
    rw [← hstate, heq]
  have hreg1 : s1.registeredWallets.contains pk = true := by
    rw [hs1]; exact hreg
  rw [redeemNotes_singleton b now2 s1 pk n hreg1]
  have hspent1 : s1.spentNotes.contains n.noteId = true := by
    rw [hs1]; simp
  unfold Server.redeemOne
  rw [if_neg hid, if_pos hspent1]

/-- C2 witness: redeeming `noteW` in `stateW` yields `stateW2`; the
resubmission in `stateW2` is rejected as already spent, state unchanged. -/
theorem C2_double_spend_sequential_witness :
    Server.redeemNotes bankPkC 60 stateW2 pkW [noteW] =
      ([.rejected "n1" "note already spent"], stateW2) :=
  C2_double_spend_sequential bankPkC 50 60 stateW pkW noteW stateW2 (by decide)

/-- C3 counterexample: mutating `issuedTo` after mint and resubmitting
is rejected, but with reason "invalid bank signature" (the issuer
signature covers `issuedTo`), not "issuedTo does not match issuance
record". -/
theorem C3_counterexample :
    Server.redeemNotes bankPkC 50 stateW pkW [noteX] =
      ([.rejected "n1" "invalid bank signature"], stateW) ∧
    Server.NoteResult.rejected "n1" "invalid bank signature" ≠
      Server.NoteResult.rejected "n1" "issuedTo does not match issuance record" := by
  exact ⟨by decide, by decide⟩

/-- C3 (amended): mutating `issuedTo` of a genuinely bank-signed,
unspent note and resubmitting it yields a rejection — with reason
"invalid bank signature", because the bank-signature check (whose signed
message includes `issuedTo`) runs before the issuance-record comparison;
the state is unchanged. -/
theorem C3_forged_root_amended :
    ∀ (bankSk : String) (now : Int) (pk : String) (s : Server.BankState)
      (note : DigitalNote) (x : String),
      note.issuerSignature = some (mkSig bankSk (mintMessage note)) →
      x ≠ note.issuedTo →
      note.noteId ≠ "" →
      s.spentNotes.contains note.noteId = false →
      Server.redeemOne (pubOf bankSk) now pk s { note with issuedTo := x } =
        (.rejected note.noteId "invalid bank signature", s) := by
  intro bankSk now pk s note x hsig hx hid hspent
  have hbank : Server.verifyBankSignature (pubOf bankSk)
      { note with issuedTo := x } = false := by
    unfold Server.verifyBankSignature
    rw [show ({ note with issuedTo := x } : DigitalNote).issuerSignature =
        note.issuerSignature from rfl, hsig]
    unfold sigVerify
    simp [mkSig, mintMessage, Ne.symm hx]
  unfold Server.redeemOne
  rw [show ({ note with issuedTo := x } : DigitalNote).noteId = note.noteId
    from rfl]
  rw [if_neg hid,
    if_neg (by rw [hspent]; exact Bool.false_ne_true),
    if_pos (by rw [hbank]; exact Bool.false_ne_true)]

/-- C3 witness: the forged-root scenario on the concrete ledger. -/
theorem C3_forged_root_amended_witness :
    Server.redeemOne bankPkC 50 pkW stateW noteX =
      (.rejected "n1" "invalid bank signature", stateW) :=
  C3_forged_root_amended "bank" 50 pkW stateW noteW (pubOf "x")
    (by decide) (by decide) (by decide) (by decide)

end DPC

namespace DPC

/-- C4: a chain of length 3 makes `buildTransferPayload` fail (with the
hop-limit reason when the owner/self-send checks pass), and a chain of
length 4 is rejected by both `validateIncomingNote` and issuer-side
redeem. -/
theorem C4_hop_limit_enforcement :
    (∀ (note : DigitalNote) (sk spk rpk : String) (bal now : Int),
      MAX_HOPS ≤ note.transferChain.length →
      ((OfflineTransferEngine.buildTransferPayload note sk spk rpk bal
        now).validation).ok = false) ∧
    (∀ (note : DigitalNote) (sk spk rpk : String) (bal now : Int),
      Crypto.getNoteOwner note = spk → rpk ≠ spk →
      note.transferChain.length = 3 →
      (OfflineTransferEngine.buildTransferPayload note sk spk rpk bal
        now).validation = ⟨false, some "Hop limit exceeded"⟩) ∧
    (∀ (note : DigitalNote) (bpk rpk : String) (bal now : Int),
      note.transferChain.length = 4 →
      (OfflineTransferEngine.validateIncomingNote note bpk rpk bal now).ok
        = false) ∧
    (∀ (s : Server.BankState) (note : DigitalNote) (pk bankPk : String)
      (now : Int),
      note.transferChain.length = 4 →
      ((Server.redeemOne bankPk now pk s note).1).isRedeemed = false) := by
  refine ⟨?_, ?_, ?_, ?_⟩
  · intro note sk spk rpk bal now hlen
    unfold OfflineTransferEngine.buildTransferPayload
    split_ifs with h1 h2 <;> rfl
  · intro note sk spk rpk bal now hown hrpk hlen
    unfold OfflineTransferEngine.buildTransferPayload
    rw [if_neg (not_not_intro hown), if_neg hrpk,
      if_pos (show note.transferChain.length ≥ MAX_HOPS by rw [hlen]; decide)]
  · intro note bpk rpk bal now hlen
    unfold OfflineTransferEngine.validateIncomingNote
    split_ifs with h1 h2 h3 h4 h5 h6 <;> try rfl
    exact absurd (show note.transferChain.length > MAX_HOPS by
      rw [hlen]; decide) h4
  · intro s note pk bankPk now hlen
    refine redeemOne_not_redeemed bankPk now pk s note (fun hok => ?_)
    have hle := ((serverVerify_ok_iff s note pk).mp hok).1
    rw [hlen] at hle
    exact absurd hle (by decide)

/-- C4 witness: the three-hop `note3` cannot be transferred again, and
the four-hop `note4` is rejected on receipt and at redemption. -/
theorem C4_hop_limit_enforcement_witness :
    ((OfflineTransferEngine.buildTransferPayload note3 "d" (pubOf "d")
      (pubOf "e") 100 5).validation).ok = false ∧
    (OfflineTransferEngine.buildTransferPayload note3 "d" (pubOf "d")
      (pubOf "e") 100 5).validation = ⟨false, some "Hop limit exceeded"⟩ ∧
    (OfflineTransferEngine.validateIncomingNote note4 bankPkC (pubOf "e")
      0 5).ok = false ∧
    ((Server.redeemOne bankPkC 5 (pubOf "e") stateW note4).1).isRedeemed
      = false :=
  ⟨C4_hop_limit_enforcement.1 note3 "d" (pubOf "d") (pubOf "e") 100 5
      (by decide),
   C4_hop_limit_enforcement.2.1 note3 "d" (pubOf "d") (pubOf "e") 100 5
      (by decide) (by decide) (by decide),
   C4_hop_limit_enforcement.2.2.1 note4 bankPkC (pubOf "e") 0 5 (by decide),
   C4_hop_limit_enforcement.2.2.2 stateW note4 (pubOf "e") bankPkC 5
      (by decide)⟩

/-- C5 counterexample: `note4` has a valid issuer signature, a valid
chain of length 4 (> hop limit), and an owner different from the
recipient; `validateIncomingNote` reports the not-recipient failure, not
a chain/hop-limit error — so the claimed check order does not hold. -/
theorem C5_counterexample :
    Crypto.verifyBankSignature note4 bankPkC = true ∧
    Crypto.verifyTransferChain note4 = true ∧
    note4.transferChain.length > MAX_HOPS ∧
    Crypto.getNoteOwner note4 ≠ pubOf "z" ∧
    OfflineTransferEngine.validateIncomingNote note4 bankPkC (pubOf "z") 0 5 =
      ⟨false, some "Transfer chain does not end with recipient"⟩ := by
  refine ⟨by decide, by decide, by decide, by decide, by decide⟩

/-- C5 (amended): `validateIncomingNote` checks, in order: issuer
signature, chain validity (which itself has no hop-limit check), then
recipient-is-owner, and only then the hop limit; in particular a valid
over-limit chain whose owner is not the recipient reports
"Transfer chain does not end with recipient". -/
theorem C5_validation_order_amended :
    ∀ (note : DigitalNote) (bpk rpk : String) (bal now : Int),
      (Crypto.verifyBankSignature note bpk = false →
        OfflineTransferEngine.validateIncomingNote note bpk rpk bal now =
          ⟨false, some "Invalid issuer signature"⟩) ∧
      (Crypto.verifyBankSignature note bpk = true →
        Crypto.verifyTransferChain note = false →
        OfflineTransferEngine.validateIncomingNote note bpk rpk bal now =
          ⟨false, some "Invalid transfer chain"⟩) ∧
      (Crypto.verifyBankSignature note bpk = true →
        Crypto.verifyTransferChain note = true →
        Crypto.getNoteOwner note ≠ rpk →
        OfflineTransferEngine.validateIncomingNote note bpk rpk bal now =
          ⟨false, some "Transfer chain does not end with recipient"⟩) ∧
      (Crypto.verifyBankSignature note bpk = true →
        Crypto.verifyTransferChain note = true →
        Crypto.getNoteOwner note = rpk →
        note.transferChain.length > MAX_HOPS →
        OfflineTransferEngine.validateIncomingNote note bpk rpk bal now =
          ⟨false, some "Hop limit exceeded"⟩) := by
  intro note bpk rpk bal now
  refine ⟨?_, ?_, ?_, ?_⟩
  · intro h1
    unfold OfflineTransferEngine.validateIncomingNote
    rw [if_pos (by rw [h1]; exact Bool.false_ne_true)]
  · intro h1 h2
    unfold OfflineTransferEngine.validateIncomingNote
    rw [if_neg (not_not_intro h1), if_pos (by rw [h2]; exact Bool.false_ne_true)]
  · intro h1 h2 h3
    unfold OfflineTransferEngine.validateIncomingNote
    rw [if_neg (not_not_intro h1), if_neg (not_not_intro h2), if_pos h3]
  · intro h1 h2 h3 h4
    unfold OfflineTransferEngine.validateIncomingNote
    rw [if_neg (not_not_intro h1), if_neg (not_not_intro h2),
      if_neg (not_not_intro h3), if_pos h4]

/-- C5 witness: each branch of the order characterization at a concrete
input; the last two exercise the four-hop `note4`. -/
theorem C5_validation_order_amended_witness :
    OfflineTransferEngine.validateIncomingNote noteWbase bankPkC pkW 0 5 =
      ⟨false, some "Invalid issuer signature"⟩ ∧
    OfflineTransferEngine.validateIncomingNote note4 bankPkC (pubOf "z") 0 5 =
      ⟨false, some "Transfer chain does not end with recipient"⟩ ∧
    OfflineTransferEngine.validateIncomingNote note4 bankPkC (pubOf "e") 0 5 =
      ⟨false, some "Hop limit exceeded"⟩ :=
  ⟨(C5_validation_order_amended noteWbase bankPkC pkW 0 5).1 (by decide),
   (C5_validation_order_amended note4 bankPkC (pubOf "z") 0 5).2.2.1
      (by decide) (by decide) (by decide),
   (C5_validation_order_amended note4 bankPkC (pubOf "e") 0 5).2.2.2
      (by decide) (by decide) (by decide) (by decide)⟩

end DPC

namespace DPC

/-- C6: a successful `buildTransferPayload` returns the input note with
exactly one signed hop appended — the old hops and every other field are
unchanged, and the chain grows by exactly one. -/
theorem C6_append_only :
    ∀ (note : DigitalNote) (sk spk rpk : String) (bal now : Int),
      ((OfflineTransferEngine.buildTransferPayload note sk spk rpk bal
        now).validation).ok = true →
      (OfflineTransferEngine.buildTransferPayload note sk spk rpk bal
        now).updatedNote =
        { note with transferChain := note.transferChain ++
            [Crypto.signTransfer note.noteId sk spk rpk now] } ∧
      ((OfflineTransferEngine.buildTransferPayload note sk spk rpk bal
        now).updatedNote).transferChain.length =
        note.transferChain.length + 1 ∧
      ((OfflineTransferEngine.buildTransferPayload note sk spk rpk bal
        now).updatedNote).noteId = note.noteId ∧
      ((OfflineTransferEngine.buildTransferPayload note sk spk rpk bal
        now).updatedNote).value = note.value ∧
      ((OfflineTransferEngine.buildTransferPayload note sk spk rpk bal
        now).updatedNote).createdAt = note.createdAt ∧
      ((OfflineTransferEngine.buildTransferPayload note sk spk rpk bal
        now).updatedNote).expiry = note.expiry ∧
      ((OfflineTransferEngine.buildTransferPayload note sk spk rpk bal
        now).updatedNote).issuerSignature = note.issuerSignature ∧
      ((OfflineTransferEngine.buildTransferPayload note sk spk rpk bal
        now).updatedNote).issuedTo = note.issuedTo := by
  intro note sk spk rpk bal now h
  unfold OfflineTransferEngine.buildTransferPayload at h ⊢
  split_ifs at h ⊢ with h1 h2 h3 h4 h5
  refine ⟨rfl, ?_, rfl, rfl, rfl, rfl, rfl, rfl⟩
  simp

/-- C6 witness: transferring the fresh `noteA` from wallet `a` to `b`. -/
theorem C6_append_only_witness :
    (OfflineTransferEngine.buildTransferPayload noteA "a" (pubOf "a")
      (pubOf "b") 50 5).updatedNote =
      { noteA with transferChain := noteA.transferChain ++
          [Crypto.signTransfer noteA.noteId "a" (pubOf "a") (pubOf "b") 5] } :=
  (C6_append_only noteA "a" (pubOf "a") (pubOf "b") 50 5 (by decide)).1

/-- C7: with all other guards passing, every expiry check is strict:
at current time `expiry + 1` the note is rejected as expired, at
`expiry - 1` it passes — in `buildTransferPayload`,
`validateIncomingNote`, and issuer-side redeem. -/
theorem C7_expiry_boundary :
    (∀ (note : DigitalNote) (sk spk rpk : String) (bal : Int),
      Crypto.getNoteOwner note = spk → rpk ≠ spk →
      note.transferChain.length < MAX_HOPS → note.value ≤ bal →
      (OfflineTransferEngine.buildTransferPayload note sk spk rpk bal
        (note.expiry + 1)).validation = ⟨false, some "Note has expired"⟩ ∧
      ((OfflineTransferEngine.buildTransferPayload note sk spk rpk bal
        (note.expiry - 1)).validation).ok = true) ∧
    (∀ (note : DigitalNote) (bpk rpk : String) (bal : Int),
      Crypto.verifyBankSignature note bpk = true →
      Crypto.verifyTransferChain note = true →
      Crypto.getNoteOwner note = rpk →
      note.transferChain.length ≤ MAX_HOPS →
      bal + note.value ≤ MAX_OFFLINE_BALANCE →
      OfflineTransferEngine.validateIncomingNote note bpk rpk bal
        (note.expiry + 1) = ⟨false, some "Note has expired"⟩ ∧
      (OfflineTransferEngine.validateIncomingNote note bpk rpk bal
        (note.expiry - 1)).ok = true) ∧
    (∀ (s : Server.BankState) (note : DigitalNote) (pk b : String),
      note.noteId ≠ "" → s.spentNotes.contains note.noteId = false →
      Server.verifyBankSignature b note = true →
      Server.verifyTransferChain s note pk = .ok →
      (Server.redeemOne b (note.expiry + 1) pk s note).1 =
        .rejected note.noteId "note expired" ∧
      (Server.redeemOne b (note.expiry - 1) pk s note).1 =
        .redeemed note.noteId) := by
  refine ⟨?_, ?_, ?_⟩
  · intro note sk spk rpk bal hown hrpk hlen hbal
    constructor
    · unfold OfflineTransferEngine.buildTransferPayload
      rw [if_neg (not_not_intro hown), if_neg hrpk, if_neg (by omega),
        if_neg (by omega), if_pos (by omega)]
    · unfold OfflineTransferEngine.buildTransferPayload
      rw [if_neg (not_not_intro hown), if_neg hrpk, if_neg (by omega),
        if_neg (by omega), if_neg (by omega)]
  · intro note bpk rpk bal hbank hchain hown hlen hbal
    constructor
    · unfold OfflineTransferEngine.validateIncomingNote
      rw [if_neg (not_not_intro hbank), if_neg (not_not_intro hchain),
        if_neg (not_not_intro hown), if_neg (by omega), if_pos (by omega)]
    · unfold OfflineTransferEngine.validateIncomingNote
      rw [if_neg (not_not_intro hbank), if_neg (not_not_intro hchain),
        if_neg (not_not_intro hown), if_neg (by omega), if_neg (by omega),
        if_neg (by omega)]
  · intro s note pk b hid hspent hbank hchain
    constructor
    · unfold Server.redeemOne
      rw [if_neg hid, if_neg (by rw [hspent]; exact Bool.false_ne_true),
        if_neg (not_not_intro hbank)]
      simp only [hchain]
      rw [if_pos (by omega)]
    · unfold Server.redeemOne
      rw [if_neg hid, if_neg (by rw [hspent]; exact Bool.false_ne_true),
        if_neg (not_not_intro hbank)]
      simp only [hchain]
      rw [if_neg (by omega)]

/-- C7 witness: the boundary at each of the three checks, on `noteA`
(`expiry = 100`, holder side) and `noteW` in `stateW` (issuer side). -/
theorem C7_expiry_boundary_witness :
    (OfflineTransferEngine.buildTransferPayload noteA "a" (pubOf "a")
      (pubOf "b") 50 101).validation = ⟨false, some "Note has expired"⟩ ∧
    ((OfflineTransferEngine.buildTransferPayload noteA "a" (pubOf "a")
      (pubOf "b") 50 99).validation).ok = true ∧
    OfflineTransferEngine.validateIncomingNote noteW bankPkC pkW 0 101 =
      ⟨false, some "Note has expired"⟩ ∧
    (OfflineTransferEngine.validateIncomingNote noteW bankPkC pkW 0 99).ok
      = true ∧
    (Server.redeemOne bankPkC 101 pkW stateW noteW).1 =
      .rejected "n1" "note expired" ∧
    (Server.redeemOne bankPkC 99 pkW stateW noteW).1 = .redeemed "n1" :=
  ⟨(C7_expiry_boundary.1 noteA "a" (pubOf "a") (pubOf "b") 50 (by decide)
      (by decide) (by decide) (by decide)).1,
   (C7_expiry_boundary.1 noteA "a" (pubOf "a") (pubOf "b") 50 (by decide)
      (by decide) (by decide) (by decide)).2,
   (C7_expiry_boundary.2.1 noteW bankPkC pkW 0 (by decide) (by decide)
      (by decide) (by decide) (by decide)).1,
   (C7_expiry_boundary.2.1 noteW bankPkC pkW 0 (by decide) (by decide)
      (by decide) (by decide) (by decide)).2,
   (C7_expiry_boundary.2.2 stateW noteW pkW bankPkC (by decide) (by decide)
      (by decide) (by decide)).1,
   (C7_expiry_boundary.2.2 stateW noteW pkW bankPkC (by decide) (by decide)
      (by decide) (by decide)).2⟩

end DPC

namespace DPC

/-- C8: for a registered wallet and an amount in range, `/withdraw`
fails with the balance-cap error exactly when the ledger-computed
balance plus the amount strictly exceeds the limit, and mints exactly
when it does not (equality with the limit is allowed). -/
theorem C8_balance_cap :
    ∀ (bankSk : String) (s : Server.BankState) (pk : String) (amount : Int)
      (uuid : String) (now : Int),
      pk ≠ "" → s.registeredWallets.contains pk = true →
      0 < amount → amount ≤ MAX_OFFLINE_BALANCE →
      (((Server.withdraw bankSk s pk amount uuid now).1 =
          .badRequest "offline balance limit would be exceeded") ↔
        MAX_OFFLINE_BALANCE < Server.calculateOfflineBalance s pk + amount) ∧
      (((Server.withdraw bankSk s pk amount uuid now).1 =
          .created (Server.mintedNote bankSk pk amount uuid now)) ↔
        Server.calculateOfflineBalance s pk + amount ≤ MAX_OFFLINE_BALANCE) := by
  intro bankSk s pk amount uuid now hpk hreg hpos hle
  unfold Server.withdraw
  rw [if_neg hpk, if_neg (not_not_intro hreg), if_neg (by omega),
    if_neg (by omega)]
  by_cases hbal :
      Server.calculateOfflineBalance s pk + amount > MAX_OFFLINE_BALANCE
  · rw [if_pos hbal]
    constructor
    · exact ⟨fun _ => hbal, fun _ => rfl⟩
    · constructor
      · intro h; exact absurd h (by simp)
      · intro h; exact absurd hbal (by omega)
  · rw [if_neg hbal]
    constructor
    · constructor
      · intro h; exact absurd h (by simp)
      · intro h; exact absurd h hbal
    · exact ⟨fun _ => by omega, fun _ => rfl⟩

/-- C8 witness: with ledger balance 950, a mint of 100 is refused with
the balance-cap error and a mint of 50 is granted (950 + 50 = 1000). -/
theorem C8_balance_cap_witness :
    ((Server.withdraw "bank" s950 pkW 100 "m3" 0).1 =
      .badRequest "offline balance limit would be exceeded") ∧
    ¬ ((Server.withdraw "bank" s950 pkW 50 "m4" 0).1 =
      .badRequest "offline balance limit would be exceeded") ∧
    (Server.withdraw "bank" s950 pkW 50 "m4" 0).1 =
      .created (Server.mintedNote "bank" pkW 50 "m4" 0) := by
  refine ⟨(C8_balance_cap "bank" s950 pkW 100 "m3" 0 (by decide) (by decide)
      (by decide) (by decide)).1.mpr (by decide), ?_,
    (C8_balance_cap "bank" s950 pkW 50 "m4" 0 (by decide) (by decide)
      (by decide) (by decide)).2.mpr (by decide)⟩
  intro h
  exact absurd ((C8_balance_cap "bank" s950 pkW 50 "m4" 0 (by decide)
    (by decide) (by decide) (by decide)).1.mp h) (by decide)

/-- C9: hop timestamps never influence validation — notes equal up to
hop timestamps validate identically in holder chain verification,
ownership resolution, incoming-note validation and issuer-side chain
verification; and the hop signature produced by `signTransfer` covers
only the note id and the recipient, independently of the timestamp. -/
theorem C9_timestamp_irrelevance :
    ∀ (n1 n2 : DigitalNote),
      stripNote n1 = stripNote n2 →
      Crypto.verifyTransferChain n1 = Crypto.verifyTransferChain n2 ∧
      Crypto.getNoteOwner n1 = Crypto.getNoteOwner n2 ∧
      (∀ (bpk rpk : String) (bal now : Int),
        OfflineTransferEngine.validateIncomingNote n1 bpk rpk bal now =
          OfflineTransferEngine.validateIncomingNote n2 bpk rpk bal now) ∧
      (∀ (s : Server.BankState) (pk : String),
        Server.verifyTransferChain s n1 pk =
          Server.verifyTransferChain s n2 pk) ∧
      (∀ (nid sk spk rpk : String) (t1 t2 : Int),
        (Crypto.signTransfer nid sk spk rpk t1).signature =
          some (mkSig sk (transferMessage nid rpk)) ∧
        stripHop (Crypto.signTransfer nid sk spk rpk t1) =
          stripHop (Crypto.signTransfer nid sk spk rpk t2)) := by
  intro n1 n2 h
  refine ⟨?_, ?_, ?_, ?_, ?_⟩
  · rw [← verifyTransferChain_strip n1, ← verifyTransferChain_strip n2, h]
  · rw [← getNoteOwner_strip n1, ← getNoteOwner_strip n2, h]
  · intro bpk rpk bal now
    rw [← validateIncomingNote_strip n1, ← validateIncomingNote_strip n2, h]
  · intro s pk
    rw [← serverVerify_strip s n1, ← serverVerify_strip s n2, h]
  · intro nid sk spk rpk t1 t2
    exact ⟨rfl, rfl⟩

/-- C9 witness: `noteT1` and `noteT2` differ only in one hop timestamp
(and are distinct notes), yet validate identically. -/
theorem C9_timestamp_irrelevance_witness :
    Crypto.verifyTransferChain noteT1 = Crypto.verifyTransferChain noteT2 ∧
    Crypto.getNoteOwner noteT1 = Crypto.getNoteOwner noteT2 ∧
    OfflineTransferEngine.validateIncomingNote noteT1 bankPkC (pubOf "b")
        0 5 =
      OfflineTransferEngine.validateIncomingNote noteT2 bankPkC (pubOf "b")
        0 5 ∧
    noteT1 ≠ noteT2 := by
  have h := C9_timestamp_irrelevance noteT1 noteT2 (by decide)
  exact ⟨h.1, h.2.1, h.2.2.1 bankPkC (pubOf "b") 0 5, by decide⟩

end DPC
